import Mathlib

/-!
Verification of the toy two-coin EM example in `ch4/ch4_notes.ipynb`.

The notebook fixes `data = [5, 9, 8, 4, 7]`, `theta_A, theta_B = 0.6, 0.5`,
defines the unnormalized Bernoulli likelihood `compute_joint_pr`, runs one
E step that stores responsibilities rounded to three decimals, and one M step
that sums the columns
  `E[#heads z==A] = lk_A * x`, `E[#tails z==A] = (1 - lk_A) * (10 - x)`
(and the analogous `z==B` columns) and then divides
  `theta_A = E[heads, z==A] / (E[heads, z==A] + E[tails, z==A])`.

We embed the arithmetic over `ℚ` (Python floats become exact rationals; the
concrete values involved here are tie-free, so Python's `round(v, 3)` agrees
with the exact half-up rounding `round3` below).
-/

/-- The notebook's `compute_joint_pr(x, theta, n=10)`:
`theta**x * (1-theta)**(n-x)`. -/
def compute_joint_pr (x : ℕ) (theta : ℚ) (n : ℕ) : ℚ :=
  theta ^ x * (1 - theta) ^ (n - x)

/-- Rounding to three decimal places, as Python's `round(v, 3)` on the
(tie-free) values occurring here. -/
def round3 (q : ℚ) : ℚ :=
  (⌊q * 1000 + 1 / 2⌋ : ℚ) / 1000

/-- The exact responsibilities `(lk_A / t, lk_B / t)` with `t = lk_A + lk_B`
computed for one draw inside the notebook's E-step loop, before rounding. -/
def resp_pair (heads : ℕ) (thA thB : ℚ) (n : ℕ) : ℚ × ℚ :=
  (compute_joint_pr heads thA n /
      (compute_joint_pr heads thA n + compute_joint_pr heads thB n),
   compute_joint_pr heads thB n /
      (compute_joint_pr heads thA n + compute_joint_pr heads thB n))

/-- The notebook's E-step loop: for each draw store
`round(lk_A/t, 3)` and `round(lk_B/t, 3)`. -/
def e_step (data : List ℕ) (thA thB : ℚ) (n : ℕ) : List (ℚ × ℚ) :=
  data.map (fun heads =>
    (round3 (resp_pair heads thA thB n).1, round3 (resp_pair heads thA thB n).2))

/-- The E step without the rounding of the stored values: the exact
normalized likelihood ratios. -/
def e_step_exact (data : List ℕ) (thA thB : ℚ) (n : ℕ) : List (ℚ × ℚ) :=
  data.map (fun heads => resp_pair heads thA thB n)

/-- Column `E[#heads z==A] = lk_A * x`, summed (the notebook's
`df[...].sum()`). -/
def exp_heads_A (data : List ℕ) (resp : List (ℚ × ℚ)) : ℚ :=
  ((data.zip resp).map (fun r => r.2.1 * (r.1 : ℚ))).sum

/-- Column `E[#tails z==A] = (1 - lk_A) * (n - x)`, summed.  Note the code
multiplies by `1 - lk_A`, i.e. by the responsibility of the other class. -/
def exp_tails_A (data : List ℕ) (resp : List (ℚ × ℚ)) (n : ℕ) : ℚ :=
  ((data.zip resp).map (fun r => (1 - r.2.1) * ((n : ℚ) - (r.1 : ℚ)))).sum

/-- Column `E[#heads z==B] = lk_B * x`, summed. -/
def exp_heads_B (data : List ℕ) (resp : List (ℚ × ℚ)) : ℚ :=
  ((data.zip resp).map (fun r => r.2.2 * (r.1 : ℚ))).sum

/-- Column `E[#tails z==B] = (1 - lk_B) * (n - x)`, summed. -/
def exp_tails_B (data : List ℕ) (resp : List (ℚ × ℚ)) (n : ℕ) : ℚ :=
  ((data.zip resp).map (fun r => (1 - r.2.2) * ((n : ℚ) - (r.1 : ℚ)))).sum

/-- The notebook's M step: new `(theta_A, theta_B)` from the summed expected
count columns,
`theta_A = E[heads, z==A] / (E[heads, z==A] + E[tails, z==A])` and likewise
for `B`, with the columns exactly as the code computes them. -/
def m_step (data : List ℕ) (resp : List (ℚ × ℚ)) (n : ℕ) : ℚ × ℚ :=
  (exp_heads_A data resp / (exp_heads_A data resp + exp_tails_A data resp n),
   exp_heads_B data resp / (exp_heads_B data resp + exp_tails_B data resp n))

/-- The M step as the spec words it:
`θ_class = Σ(resp_class × heads) / Σ(resp_class × n)`, with the same class's
responsibility weighting both numerator and denominator. -/
def m_step_spec (data : List ℕ) (resp : List (ℚ × ℚ)) (n : ℕ) : ℚ × ℚ :=
  (((data.zip resp).map (fun r => r.2.1 * (r.1 : ℚ))).sum /
      ((data.zip resp).map (fun r => r.2.1 * (n : ℚ))).sum,
   ((data.zip resp).map (fun r => r.2.2 * (r.1 : ℚ))).sum /
      ((data.zip resp).map (fun r => r.2.2 * (n : ℚ))).sum)

/-- The likelihood as the spec words it, with the exponent `n - count` taken
in `ℤ`. -/
def compute_likelihood_spec (count : ℕ) (theta : ℚ) (n : ℕ) : ℚ :=
  theta ^ count * (1 - theta) ^ ((n : ℤ) - (count : ℤ))

/-- The notebook's observed head counts. -/
def data10 : List ℕ := [5, 9, 8, 4, 7]

/-- Table 1 of the notebook: the stored (rounded) responsibilities after one
E step from `theta_A = 0.6`, `theta_B = 0.5`. -/
def resps10 : List (ℚ × ℚ) :=
  [(449 / 1000, 551 / 1000), (805 / 1000, 195 / 1000), (733 / 1000, 267 / 1000),
   (352 / 1000, 648 / 1000), (647 / 1000, 353 / 1000)]

/-- A sum of a list of nonnegative images is nonnegative. -/
theorem sum_map_nonneg {α : Type} (l : List α) (f : α → ℚ)
    (h : ∀ a ∈ l, 0 ≤ f a) : 0 ≤ (l.map f).sum := by
  apply List.sum_nonneg
  intro x hx
  obtain ⟨a, ha, rfl⟩ := List.mem_map.1 hx
  exact h a ha

/-- For nonnegative `a, b`, the ratio `a / (a + b)` lies in `[0, 1]` (it is
`0` when the denominator vanishes, by the `x / 0 = 0` convention). -/
theorem unit_div_bounds (a b : ℚ) (ha : 0 ≤ a) (hb : 0 ≤ b) :
    0 ≤ a / (a + b) ∧ a / (a + b) ≤ 1 := by
  rcases eq_or_lt_of_le (add_nonneg ha hb) with h | h
  · rw [← h, div_zero]
    norm_num
  · exact ⟨div_nonneg ha h.le, (div_le_one h).2 (by linarith)⟩

/-- Mapping over a list zipped with its own image collapses to a single map. -/
theorem zip_map_self {β γ : Type} (l : List ℕ) (f : ℕ → β) (g : ℕ × β → γ) :
    (l.zip (l.map f)).map g = l.map (fun h => g (h, f h)) := by
  induction l with
  | nil => rfl
  | cons a t ih => simp [ih]

/-- Sums of equal images over permuted lists agree. -/
theorem perm_map_sum {α : Type} {l l2 : List α} (hp : l.Perm l2) (g : α → ℚ) :
    (l.map g).sum = (l2.map g).sum :=
  (hp.map g).sum_eq

/-- Claim C1: the spec says the M step computes
`θ_class = Σ(resp_class × heads) / Σ(resp_class × n)` with the same class's
responsibility in numerator and denominator.  The code instead divides by
`Σ(resp_class × heads) + Σ((1 - resp_class) × (n - heads))`, weighting the
tail column by the other class's responsibility.  At the notebook's own data
and Table-1 responsibilities the two disagree: the code yields
`(21291/29722, 11709/20278) ≈ (0.7163, 0.5774)` while the spec's formula
yields `(21291/29860, 11709/20140) ≈ (0.7130, 0.5814)`. -/
theorem C1_m_step_differs_from_spec_formula :
    m_step data10 resps10 10 = (21291 / 29722, 11709 / 20278) ∧
      m_step_spec data10 resps10 10 = (21291 / 29860, 11709 / 20140) ∧
      m_step data10 resps10 10 ≠ m_step_spec data10 resps10 10 := by
  have h1 : m_step data10 resps10 10 = (21291 / 29722, 11709 / 20278) := by
    norm_num [m_step, exp_heads_A, exp_tails_A, exp_heads_B, exp_tails_B, data10, resps10,
      List.zip_cons_cons, List.zip_nil_right]
  have h2 : m_step_spec data10 resps10 10 = (21291 / 29860, 11709 / 20140) := by
    norm_num [m_step_spec, data10, resps10, List.zip_cons_cons, List.zip_nil_right]
  refine ⟨h1, h2, ?_⟩
  rw [h1, h2]
  norm_num [Prod.ext_iff]

/-- Claim C2: from the Table-1 responsibilities on `[5, 9, 8, 4, 7]` with
`n = 10`, the notebook's M step produces `theta_A ≈ 0.716` and
`theta_B ≈ 0.577` (exactly `21291/29722` and `11709/20278`, rounding to those
three-decimal values). -/
theorem C2_m_step_notebook_values :
    round3 (m_step data10 resps10 10).1 = 716 / 1000 ∧
      round3 (m_step data10 resps10 10).2 = 577 / 1000 := by
  have h1 : m_step data10 resps10 10 = (21291 / 29722, 11709 / 20278) := by
    norm_num [m_step, exp_heads_A, exp_tails_A, exp_heads_B, exp_tails_B, data10, resps10,
      List.zip_cons_cons, List.zip_nil_right]
  rw [h1]
  norm_num [round3]

/-- Claim C3: one E step on `[5, 9, 8, 4, 7]` with `n = 10`,
`theta_A = 0.6`, `theta_B = 0.5` stores exactly the class-A responsibilities
`[0.449, 0.805, 0.733, 0.352, 0.647]` of Table 1, and in each stored pair the
class-B value is the complement of the class-A value. -/
theorem C3_e_step_notebook_values :
    e_step data10 (6 / 10) (5 / 10) 10 = resps10 ∧
      resps10.map (fun p => p.1 + p.2) = [1, 1, 1, 1, 1] := by
  constructor
  · norm_num [e_step, resp_pair, compute_joint_pr, round3, data10, resps10]
  · norm_num [resps10]

/-- Claim C4: whenever the two likelihoods of an observation do not sum to
zero, the two responsibilities the E step computes for it sum to exactly 1. -/
theorem C4_responsibilities_sum_to_one (heads : ℕ) (thA thB : ℚ) (n : ℕ)
    (h : compute_joint_pr heads thA n + compute_joint_pr heads thB n ≠ 0) :
    (resp_pair heads thA thB n).1 + (resp_pair heads thA thB n).2 = 1 := by
  simp only [resp_pair]
  rw [div_add_div_same, div_self h]

/-- Claim C4, witnessed at the notebook's first draw. -/
theorem C4_responsibilities_sum_to_one_witness :
    (resp_pair 5 (6 / 10) (5 / 10) 10).1 + (resp_pair 5 (6 / 10) (5 / 10) 10).2 = 1 :=
  C4_responsibilities_sum_to_one 5 (6 / 10) (5 / 10) 10 (by norm_num [compute_joint_pr])

/-- Claim C5: under the spec's constraints `n > 0`, `count ≤ n`,
`θ ∈ [0, 1]`, the code's `compute_joint_pr` returns
`θ^count * (1-θ)^(n-count)` with the exponent read as the integer
difference, i.e. the spec's unnormalized Bernoulli likelihood. -/
theorem C5_compute_joint_pr_matches_spec (count : ℕ) (theta : ℚ) (n : ℕ)
    (hn : 0 < n) (hc : count ≤ n) (h0 : 0 ≤ theta) (h1 : theta ≤ 1) :
    compute_joint_pr count theta n = compute_likelihood_spec count theta n := by
  unfold compute_joint_pr compute_likelihood_spec
  have h2 : ((n : ℤ) - (count : ℤ)) = ((n - count : ℕ) : ℤ) := by omega
  rw [h2, zpow_natCast]

/-- Claim C5, witnessed at `count = 5`, `θ = 1/2`, `n = 10`. -/
theorem C5_compute_joint_pr_matches_spec_witness :
    compute_joint_pr 5 (1 / 2) 10 = compute_likelihood_spec 5 (1 / 2) 10 :=
  C5_compute_joint_pr_matches_spec 5 (1 / 2) 10 (by norm_num) (by norm_num)
    (by norm_num) (by norm_num)

/-- Claim C6: if every observation count is at most `n` and every
responsibility entry lies in `[0, 1]`, then both components of the M-step
output lie in `[0, 1]`. -/
theorem C6_m_step_in_unit_interval (data : List ℕ) (resp : List (ℚ × ℚ)) (n : ℕ)
    (hdata : ∀ h ∈ data, h ≤ n)
    (hresp : ∀ p ∈ resp, 0 ≤ p.1 ∧ p.1 ≤ 1 ∧ 0 ≤ p.2 ∧ p.2 ≤ 1) :
    0 ≤ (m_step data resp n).1 ∧ (m_step data resp n).1 ≤ 1 ∧
      0 ≤ (m_step data resp n).2 ∧ (m_step data resp n).2 ≤ 1 := by
  have key : ∀ r ∈ data.zip resp, r.1 ≤ n ∧ 0 ≤ r.2.1 ∧ r.2.1 ≤ 1 ∧ 0 ≤ r.2.2 ∧ r.2.2 ≤ 1 := by
    intro r hr
    obtain ⟨a, p⟩ := r
    obtain ⟨ha, hp⟩ := List.of_mem_zip hr
    exact ⟨hdata a ha, hresp p hp⟩
  have hA1 : 0 ≤ exp_heads_A data resp := by
    apply sum_map_nonneg
    intro r hr
    exact mul_nonneg (key r hr).2.1 (Nat.cast_nonneg r.1)
  have hA2 : 0 ≤ exp_tails_A data resp n := by
    apply sum_map_nonneg
    intro r hr
    have hn' : (r.1 : ℚ) ≤ n := by exact_mod_cast (key r hr).1
    exact mul_nonneg (by linarith [(key r hr).2.2.1]) (by linarith)
  have hB1 : 0 ≤ exp_heads_B data resp := by
    apply sum_map_nonneg
    intro r hr
    exact mul_nonneg (key r hr).2.2.2.1 (Nat.cast_nonneg r.1)
  have hB2 : 0 ≤ exp_tails_B data resp n := by
    apply sum_map_nonneg
    intro r hr
    have hn' : (r.1 : ℚ) ≤ n := by exact_mod_cast (key r hr).1
    exact mul_nonneg (by linarith [(key r hr).2.2.2.2]) (by linarith)
  have bA := unit_div_bounds _ _ hA1 hA2
  have bB := unit_div_bounds _ _ hB1 hB2
  exact ⟨bA.1, bA.2, bB.1, bB.2⟩

/-- Claim C6, witnessed at the notebook's data and Table-1 responsibilities. -/
theorem C6_m_step_in_unit_interval_witness :
    0 ≤ (m_step data10 resps10 10).1 ∧ (m_step data10 resps10 10).1 ≤ 1 ∧
      0 ≤ (m_step data10 resps10 10).2 ∧ (m_step data10 resps10 10).2 ≤ 1 :=
  C6_m_step_in_unit_interval data10 resps10 10 (by decide) (by norm_num [resps10])

/-- Claim C7: with equal non-degenerate parameters `theta_A = theta_B = θ`,
`0 < θ < 1`, the E step assigns responsibility `1/2` to both classes for
every observation. -/
theorem C7_equal_thetas_give_half (data : List ℕ) (theta : ℚ) (n : ℕ)
    (h0 : 0 < theta) (h1 : theta < 1) :
    e_step data theta theta n = data.map (fun _ => ((1 : ℚ) / 2, (1 : ℚ) / 2)) := by
  unfold e_step
  apply List.map_congr_left
  intro heads _
  have hL : 0 < compute_joint_pr heads theta n :=
    mul_pos (pow_pos h0 _) (pow_pos (by linarith) _)
  have h23 : resp_pair heads theta theta n = (1 / 2, 1 / 2) := by
    unfold resp_pair
    rw [Prod.mk.injEq]
    constructor <;> (rw [div_eq_iff (ne_of_gt (by linarith))]; ring)
  rw [h23]
  norm_num [round3]

/-- Claim C7, witnessed at the notebook's data with `θ = 1/2`. -/
theorem C7_equal_thetas_give_half_witness :
    e_step data10 (1 / 2) (1 / 2) 10 =
      data10.map (fun _ => ((1 : ℚ) / 2, (1 : ℚ) / 2)) :=
  C7_equal_thetas_give_half data10 (1 / 2) 10 (by norm_num) (by norm_num)

/-- Claim C8: for `theta_A, theta_B` strictly inside `(0, 1)` the E-step
normalizer `lk_A + lk_B` is strictly positive (so the divisions cannot divide
by zero), while at a degenerate parameter pair such as `θ_A = 0, θ_B = 1`
with `heads = 5`, `n = 10` both likelihoods vanish and the unguarded division
has a zero denominator. -/
theorem C8_normalizer_positive (heads n : ℕ) (thA thB : ℚ) (hc : heads ≤ n)
    (hA0 : 0 < thA) (hA1 : thA < 1) (hB0 : 0 < thB) (hB1 : thB < 1) :
    0 < compute_joint_pr heads thA n + compute_joint_pr heads thB n ∧
      compute_joint_pr 5 0 10 + compute_joint_pr 5 1 10 = 0 := by
  constructor
  · exact add_pos (mul_pos (pow_pos hA0 _) (pow_pos (by linarith) _))
      (mul_pos (pow_pos hB0 _) (pow_pos (by linarith) _))
  · norm_num [compute_joint_pr]

/-- Claim C8, witnessed at the notebook's initial parameters. -/
theorem C8_normalizer_positive_witness :
    0 < compute_joint_pr 5 (6 / 10) 10 + compute_joint_pr 5 (5 / 10) 10 ∧
      compute_joint_pr 5 0 10 + compute_joint_pr 5 1 10 = 0 :=
  C8_normalizer_positive 5 10 (6 / 10) (5 / 10) (by norm_num) (by norm_num)
    (by norm_num) (by norm_num) (by norm_num)

/-- Claim C9: permuting the observation sequence permutes the E-step output
the same way, and leaves the M-step parameter estimates computed from that
output unchanged. -/
theorem C9_perm_invariant (l l2 : List ℕ) (thA thB : ℚ) (n : ℕ) (hp : l.Perm l2) :
    (e_step l thA thB n).Perm (e_step l2 thA thB n) ∧
      m_step l2 (e_step l2 thA thB n) n = m_step l (e_step l thA thB n) n := by
  constructor
  · exact hp.map _
  · simp only [m_step, e_step, exp_heads_A, exp_tails_A, exp_heads_B, exp_tails_B,
      zip_map_self]
    rw [perm_map_sum hp, perm_map_sum hp, perm_map_sum hp, perm_map_sum hp]

/-- Claim C9, witnessed by swapping the first two observations. -/
theorem C9_perm_invariant_witness :
    (e_step [5, 9] (6 / 10) (5 / 10) 10).Perm (e_step [9, 5] (6 / 10) (5 / 10) 10) ∧
      m_step [9, 5] (e_step [9, 5] (6 / 10) (5 / 10) 10) 10 =
        m_step [5, 9] (e_step [5, 9] (6 / 10) (5 / 10) 10) 10 :=
  C9_perm_invariant [5, 9] [9, 5] (6 / 10) (5 / 10) 10 (List.Perm.swap 9 5 [])

/-- Claim C10: the E step stores responsibilities rounded to three decimals
(the stored table is the pointwise rounding of the exact ratios), and the
M step consumes those stored values; already at the notebook's own input the
resulting `theta_A` differs from the one the exact (unrounded)
responsibilities would give. -/
theorem C10_rounding_changes_m_step :
    e_step data10 (6 / 10) (5 / 10) 10 =
      (e_step_exact data10 (6 / 10) (5 / 10) 10).map (fun p => (round3 p.1, round3 p.2)) ∧
      (m_step data10 (e_step data10 (6 / 10) (5 / 10) 10) 10).1 ≠
        (m_step data10 (e_step_exact data10 (6 / 10) (5 / 10) 10) 10).1 := by
  constructor
  · simp [e_step, e_step_exact]
  · norm_num [m_step, exp_heads_A, exp_tails_A, e_step, e_step_exact, resp_pair,
      compute_joint_pr, round3, data10, List.zip_cons_cons, List.zip_nil_right]
